/-
Verification of the core of `dbc_calc` (dbc_script.py): a shallow embedding
of the sigmoid-fitting script and proofs about its data analysis, quality
gate, error handling and output behaviour.

Numeric values are modelled as real numbers.  The iterative nonlinear
least-squares optimizer inside `scipy.optimize.curve_fit` is abstracted as a
`solver` parameter that may fail to converge; the size guard of `curve_fit`
(it raises when there are fewer data points than free parameters) is modelled
explicitly.  Everything else is translated statement by statement from
`src/dbc_calc/dbc_script.py`.
-/
import Mathlib

noncomputable section

/-- Exit code `SUCCESS = 0` (dbc_script.py line 21). -/
def SUCCESS : ℤ := 0

/-- Exit code `IO_ERROR = 1` (dbc_script.py line 23). -/
def IO_ERROR : ℤ := 1

/-- Exit code `INVALID_DATA = 2` (dbc_script.py line 24). -/
def INVALID_DATA : ℤ := 2

/-- Exit code `SYNTAX_ERROR = 3` (dbc_script.py line 25). -/
def SYNTAX_ERROR : ℤ := 3

/-- A row of the `data_stats` array: three real columns (dbc_script.py line 73,
`np.zeros((num_rows, 3))`). -/
abbrev Row : Type := ℝ × ℝ × ℝ

/-- The sigmoid model `y = 1 / (1 + exp(-k*(x-x0)))` (dbc_script.py lines 38-41). -/
def sigmoid (x k x0 : ℝ) : ℝ := 1 / (1 + Real.exp (-k * (x - x0)))

/-- Failure modes of `scipy.optimize.curve_fit`: it raises when given fewer
data points than free parameters, and raises when the optimizer does not
converge. -/
inductive FitError
  | tooFewSamples
  | noConvergence
deriving DecidableEq

/-- Exceptions that can escape `data_analysis`: a `curve_fit` failure, or the
`IndexError` raised by the writes `data_stats[2, 2]` / `data_stats[3, 2]`
when the array has fewer than 4 rows. -/
inductive AnalysisError
  | fit (e : FitError)
  | indexOutOfBounds
deriving DecidableEq

/-- The arithmetic mean `np.mean`, sum divided by length. -/
def npMean (l : List ℝ) : ℝ := l.sum / l.length

/-- Model of `scipy.optimize.curve_fit(sigmoid, xdata, ydata, p0)` at
dbc_script.py line 63.  The library raises when the number of data points is
below the number of free parameters (2 here); otherwise it runs an iterative
least-squares optimizer, abstracted as the `solver` argument, which either
produces optimal parameters `popt = (k, x0)` or fails to converge. -/
def curve_fit (solver : ℝ × ℝ → List (ℝ × ℝ) → Option (ℝ × ℝ))
    (p0 : ℝ × ℝ) (samples : List (ℝ × ℝ)) : Except FitError (ℝ × ℝ) :=
  if samples.length < 2 then .error .tooFewSamples
  else
    match solver p0 samples with
    | some popt => .ok popt
    | none => .error .noConvergence

/-- A single cell assignment `stats[i, 2] = v` on a NumPy array: it raises
`IndexError` (here: `none`) when row `i` does not exist. -/
def setCol2 (stats : List Row) (i : ℕ) (v : ℝ) : Option (List Row) :=
  match stats.get? i with
  | some r => some (stats.set i (r.1, r.2.1, v))
  | none => none

/-- Lines 72-80 of dbc_script.py: allocate `data_stats = np.zeros((num_rows, 3))`,
copy `xdata` into column 0 and `ydata` into column 1, then store `k`, `x0`,
`dbc_10p` and `rsquared` at rows 0-3 of column 2. -/
def build_stats (data_array : List (ℝ × ℝ)) (k x0 dbc rsq : ℝ) : Option (List Row) :=
  let num_rows := data_array.length
  let s0 : List Row := List.replicate num_rows (0, 0, 0)
  let s1 : List Row := List.zipWith (fun x (r : Row) => (x, r.2.1, r.2.2)) (data_array.map Prod.fst) s0
  let s2 : List Row := List.zipWith (fun y (r : Row) => (r.1, y, r.2.2)) (data_array.map Prod.snd) s1
  (setCol2 s2 0 k).bind fun t0 =>
  (setCol2 t0 1 x0).bind fun t1 =>
  (setCol2 t1 2 dbc).bind fun t2 =>
  setCol2 t2 3 rsq

/-- Line 66 of dbc_script.py: `dbc_10p = (-np.log(9) / popt[0]) + popt[1]`. -/
def dbc10p (k x0 : ℝ) : ℝ := -Real.log 9 / k + x0

/-- Lines 65 and 68-70 of dbc_script.py:
`ypredicted = 1 / (1 + np.exp(-popt[0]*(xdata-popt[1])))`,
`residcalc1 = (ydata - np.mean(ydata))**2`,
`residcalc2 = (ypredicted - np.mean(ydata))**2`,
`rsquared = np.sum(residcalc2) / np.sum(residcalc1)`. -/
def rsquaredOf (data_array : List (ℝ × ℝ)) (k x0 : ℝ) : ℝ :=
  let xdata := data_array.map Prod.fst
  let ydata := data_array.map Prod.snd
  let ypredicted := xdata.map fun x => 1 / (1 + Real.exp (-k * (x - x0)))
  let residcalc1 := ydata.map fun y => (y - npMean ydata) ^ 2
  let residcalc2 := ypredicted.map fun yp => (yp - npMean ydata) ^ 2
  residcalc2.sum / residcalc1.sum

/-- Lines 44-82 of dbc_script.py, `data_analysis(data_array)`: fit the sigmoid
(with the fixed initial guess `p0 = [0.4, 70.0]`), compute the 10% DBC and the
quality score, and assemble the `data_stats` array.  A `curve_fit` failure or
the out-of-bounds cell write propagate as exceptions. -/
def data_analysis (solver : ℝ × ℝ → List (ℝ × ℝ) → Option (ℝ × ℝ))
    (data_array : List (ℝ × ℝ)) : Except AnalysisError (List Row) :=
  match curve_fit solver (0.4, 70.0) data_array with
  | .error e => .error (.fit e)
  | .ok popt =>
    match build_stats data_array popt.1 popt.2 (dbc10p popt.1 popt.2)
        (rsquaredOf data_array popt.1 popt.2) with
    | some data_stats => .ok data_stats
    | none => .error .indexOutOfBounds

/-- The quality-score formula exactly as the specification words it:
`sum((y_hat - mean(y))^2) / sum((y - mean(y))^2)` where `y_hat` is the fitted
sigmoid evaluated at each observed x. -/
def quality_spec (samples : List (ℝ × ℝ)) (k x0 : ℝ) : ℝ :=
  (samples.map fun p => (sigmoid p.1 k x0 - npMean (samples.map Prod.snd)) ^ 2).sum /
  (samples.map fun p => (p.2 - npMean (samples.map Prod.snd)) ^ 2).sum

/-- The conventional coefficient of determination ratio, with numerator
`sum((y - y_hat)^2)`, for contrast with `quality_spec`. -/
def conventional_r2 (samples : List (ℝ × ℝ)) (k x0 : ℝ) : ℝ :=
  (samples.map fun p => (p.2 - sigmoid p.1 k x0) ^ 2).sum /
  (samples.map fun p => (p.2 - npMean (samples.map Prod.snd)) ^ 2).sum

/-- The least-squares objective that `curve_fit` minimizes over `(k, x0)`:
the sum of squared residuals between observed and predicted y. -/
def lsq_objective (samples : List (ℝ × ℝ)) (k x0 : ℝ) : ℝ :=
  (samples.map fun p => (p.2 - sigmoid p.1 k x0) ^ 2).sum

/-- Reading the cell `data_stats[i, 2]`. -/
def cell2 (stats : List Row) (i : ℕ) : ℝ := (stats.getD i (0, 0, 0)).2.2

/-- Outcome of `np.loadtxt` inside `parse_cmdline` (dbc_script.py line 152),
restricted to the well-formed two-column shape the fitting claims operate on:
parsed two-column data, an `IOError` (unreadable source), or a `ValueError`
(ragged rows or non-numeric entries).  `LoadtxtOutcome` further below models
the full range of parse results, 1-D arrays and wider 2-D arrays included,
and `main_np_twoD` shows `main` is exactly `main_np` on the two-column case. -/
inductive LoadResult
  | ok (data : List (ℝ × ℝ))
  | ioError
  | valueError

/-- Messages the script prints on the warning paths: the two
`warning(...)` calls in `parse_cmdline` and the `bad_fit` message. -/
inductive Message
  | problemsReadingFile
  | readInvalidData
  | poorFit (r2 : ℝ)

/-- Result of `parse_cmdline` (dbc_script.py lines 129-160).  The Python
function returns a pair `(args, ret)` where `args.csv_data` is populated only
on the `SUCCESS` path, so the pair is modelled as a sum: parsed data, or a
non-`SUCCESS` return code together with the warning printed. -/
inductive ParseResult
  | ok (csv_data : List (ℝ × ℝ))
  | failed (ret : ℤ) (msgs : List Message)

/-- Lines 149-160 of dbc_script.py: `IOError` maps to `IO_ERROR`, `ValueError`
maps to `INVALID_DATA`, otherwise the parsed data is returned with `SUCCESS`. -/
def parse_cmdline : LoadResult → ParseResult
  | .ok data => .ok data
  | .ioError => .failed IO_ERROR [.problemsReadingFile]
  | .valueError => .failed INVALID_DATA [.readInvalidData]

/-- Output files `main` can write: the `_stats.csv` results file (line 177)
and the `.png` plot (inside `plot_stats`, line 125). -/
inductive OutFile
  | statsCsv
  | plotPng
deriving DecidableEq

/-- How `main` ends: a `return` (with `none` modelling Python's `None`, which
is what `return bad_fit(...)` produces), or an exception escaping
`data_analysis`. -/
inductive MainOutcome
  | returned (ret : Option ℤ)
  | raised (e : AnalysisError)

/-- One run of `main`: its outcome, the warnings printed, and the output
files written, in order. -/
structure MainRun where
  outcome : MainOutcome
  messages : List Message
  files : List OutFile

section MainDef

attribute [local instance] Classical.propDecidable

/-- Lines 163-183 of dbc_script.py, `main(argv)`: parse the command line (any
non-`SUCCESS` code is returned at once), run `data_analysis`, reject the fit
with the `bad_fit` warning and no output when `data_stats[3, 2] > 1.05 or
data_stats[3, 2] < 0.95`, otherwise write the stats csv and the plot png and
return `SUCCESS`. -/
def main (solver : ℝ × ℝ → List (ℝ × ℝ) → Option (ℝ × ℝ)) (load : LoadResult) : MainRun :=
  match parse_cmdline load with
  | .failed ret msgs => { outcome := .returned (some ret), messages := msgs, files := [] }
  | .ok csv_data =>
    match data_analysis solver csv_data with
    | .error e => { outcome := .raised e, messages := [], files := [] }
    | .ok data_stats =>
      if cell2 data_stats 3 > 1.05 ∨ cell2 data_stats 3 < 0.95 then
        { outcome := .returned none, messages := [.poorFit (cell2 data_stats 3)], files := [] }
      else
        { outcome := .returned (some SUCCESS), messages := [],
          files := [.statsCsv, .plotPng] }

end MainDef

/-- Shape of a successfully parsed `np.loadtxt` array.  With the default
squeezing, a file with a single row or a single column parses to a 1-D
array; otherwise the array is 2-D with at least two columns, each row
modelled as its first two entries plus the list of any further entries (so
a consistently 3-column file is `twoD` with one extra entry per row). -/
inductive NpArray
  | oneD (vals : List ℝ)
  | twoD (rows : List (ℝ × ℝ × List ℝ))

/-- Outcome of `np.loadtxt` at dbc_script.py line 152 in full generality: a
parsed array of either shape, an `IOError` (unreadable source), or a
`ValueError` (ragged rows or non-numeric entries).  A consistently 3-column
file is parsed, not rejected. -/
inductive LoadtxtOutcome
  | parsed (arr : NpArray)
  | ioError
  | valueError

/-- Result of `parse_cmdline` over the full `np.loadtxt` model. -/
inductive ParseResultNp
  | ok (csv_data : NpArray)
  | failed (ret : ℤ) (msgs : List Message)

/-- Lines 149-160 of dbc_script.py over the full `np.loadtxt` model: the
error mapping only distinguishes the exceptions `loadtxt` raises; any parsed
array is returned with `SUCCESS`. -/
def parse_cmdline_np : LoadtxtOutcome → ParseResultNp
  | .parsed arr => .ok arr
  | .ioError => .failed IO_ERROR [.problemsReadingFile]
  | .valueError => .failed INVALID_DATA [.readInvalidData]

/-- `data_analysis` on a raw parsed array.  The slices `data_array[:, 0]` and
`data_array[:, 1]` at lines 59-60 raise `IndexError` (too many indices) on a
1-D array; on a 2-D array they select the first two columns, and every later
step of lines 61-82 uses only those two columns and the row count, so the
body factors through `data_analysis` on the per-row column pairs. -/
def data_analysis_np (solver : ℝ × ℝ → List (ℝ × ℝ) → Option (ℝ × ℝ)) :
    NpArray → Except AnalysisError (List Row)
  | .oneD _ => .error .indexOutOfBounds
  | .twoD rows => data_analysis solver (rows.map fun row => (row.1, row.2.1))

section MainNpDef

attribute [local instance] Classical.propDecidable

/-- Lines 163-183 of dbc_script.py over the full `np.loadtxt` model: same
control flow as `main`, with the parsed array handed to `data_analysis`
exactly as `np.loadtxt` produced it. -/
def main_np (solver : ℝ × ℝ → List (ℝ × ℝ) → Option (ℝ × ℝ))
    (load : LoadtxtOutcome) : MainRun :=
  match parse_cmdline_np load with
  | .failed ret msgs => { outcome := .returned (some ret), messages := msgs, files := [] }
  | .ok arr =>
    match data_analysis_np solver arr with
    | .error e => { outcome := .raised e, messages := [], files := [] }
    | .ok data_stats =>
      if cell2 data_stats 3 > 1.05 ∨ cell2 data_stats 3 < 0.95 then
        { outcome := .returned none, messages := [.poorFit (cell2 data_stats 3)],
          files := [] }
      else
        { outcome := .returned (some SUCCESS), messages := [],
          files := [.statsCsv, .plotPng] }

end MainNpDef

/-- Concrete four-row data set used to exercise the theorems. -/
def demoData : List (ℝ × ℝ) := [(0, 0), (1, 0), (2, 1), (3, 1)]

/-- A solver that always converges to `k = 0, x0 = 0`. -/
def zeroSolver : ℝ × ℝ → List (ℝ × ℝ) → Option (ℝ × ℝ) := fun _ _ => some (0, 0)

/-- A solver that always converges to `k = 1, x0 = 2`. -/
def oneTwoSolver : ℝ × ℝ → List (ℝ × ℝ) → Option (ℝ × ℝ) := fun _ _ => some (1, 2)

/-- A solver that never converges. -/
def noneSolver : ℝ × ℝ → List (ℝ × ℝ) → Option (ℝ × ℝ) := fun _ _ => none

/-- The stats array `data_analysis zeroSolver demoData` produces. -/
def demoStats00 : List Row :=
  [(0, 0, 0), (1, 0, 0), (2, 1, dbc10p 0 0), (3, 1, rsquaredOf demoData 0 0)]

/-- The stats array `data_analysis oneTwoSolver demoData` produces. -/
def demoStats12 : List Row :=
  [(0, 0, 1), (1, 0, 2), (2, 1, dbc10p 1 2), (3, 1, rsquaredOf demoData 1 2)]

/-- A four-row sample set whose quality score under `zeroSolver` is exactly 1
(all predictions are 1/2, the y values are symmetric about their mean 0.3 at
distance 0.2 = 1/2 - 0.3). -/
def demoData2 : List (ℝ × ℝ) := [(0, 0.1), (1, 0.1), (2, 0.5), (3, 0.5)]

/-- A consistently 3-column parsed array — wrong column count for this tool,
but happily parsed by `np.loadtxt`: `demoData2` with a third column of 9s. -/
def demo3Col : List (ℝ × ℝ × List ℝ) :=
  [(0, 0.1, [9]), (1, 0.1, [9]), (2, 0.5, [9]), (3, 0.5, [9])]

/-- The stats array `data_analysis zeroSolver demoData2` produces. -/
def demoStats2 : List Row :=
  [(0, 0.1, 0), (1, 0.1, 0), (2, 0.5, dbc10p 0 0), (3, 0.5, rsquaredOf demoData2 0 0)]

/-- The column-slice assignments `data_stats[:, 0] = xdata` and
`data_stats[:, 1] = ydata` on the freshly zeroed array just copy the sample
columns, third column still zero. -/
lemma s1s2_eq (d : List (ℝ × ℝ)) :
    List.zipWith (fun y (r : Row) => (r.1, y, r.2.2)) (d.map Prod.snd)
      (List.zipWith (fun x (r : Row) => (x, r.2.1, r.2.2)) (d.map Prod.fst)
        (List.replicate d.length ((0 : ℝ), (0 : ℝ), (0 : ℝ)))) =
    d.map fun p => (p.1, p.2, (0 : ℝ)) := by
  induction d with
  | nil => rfl
  | cons p t ih =>
    simp only [List.map_cons, List.length_cons, List.replicate_succ, List.zipWith_cons_cons, ih]

/-- On a data set with at least four rows, `build_stats` succeeds and its
result is the sample columns with `k, x0, dbc, rsq` in rows 0-3 of column 2. -/
lemma build_stats_cons (p q r s : ℝ × ℝ) (rest : List (ℝ × ℝ)) (k x0 dbc rsq : ℝ) :
    build_stats (p :: q :: r :: s :: rest) k x0 dbc rsq =
      some ((p.1, p.2, k) :: (q.1, q.2, x0) :: (r.1, r.2, dbc) :: (s.1, s.2, rsq) ::
        rest.map fun t => (t.1, t.2, (0 : ℝ))) := by
  have h := s1s2_eq (p :: q :: r :: s :: rest)
  simp only [build_stats]
  rw [h]
  simp [setCol2, List.get?, List.set]

/-- On a two-row data set the write `data_stats[2, 2]` is out of bounds. -/
lemma build_stats_two (p q : ℝ × ℝ) (k x0 dbc rsq : ℝ) :
    build_stats [p, q] k x0 dbc rsq = none := by
  have h := s1s2_eq [p, q]
  simp only [build_stats]
  rw [h]
  simp [setCol2, List.get?, List.set]

/-- On a three-row data set the write `data_stats[3, 2]` is out of bounds. -/
lemma build_stats_three (p q r : ℝ × ℝ) (k x0 dbc rsq : ℝ) :
    build_stats [p, q, r] k x0 dbc rsq = none := by
  have h := s1s2_eq [p, q, r]
  simp only [build_stats]
  rw [h]
  simp [setCol2, List.get?, List.set]

/-- Characterization of a successful `data_analysis` run on a data set with at
least four rows whose solver converges. -/
lemma data_analysis_eq_ok (solver : ℝ × ℝ → List (ℝ × ℝ) → Option (ℝ × ℝ))
    (p q r s : ℝ × ℝ) (rest : List (ℝ × ℝ)) (k x0 : ℝ)
    (hs : solver (0.4, 70.0) (p :: q :: r :: s :: rest) = some (k, x0)) :
    data_analysis solver (p :: q :: r :: s :: rest) =
      .ok ((p.1, p.2, k) :: (q.1, q.2, x0) :: (r.1, r.2, dbc10p k x0) ::
        (s.1, s.2, rsquaredOf (p :: q :: r :: s :: rest) k x0) ::
        rest.map fun t => (t.1, t.2, (0 : ℝ))) := by
  have hlen : ¬ (p :: q :: r :: s :: rest).length < 2 := by
    simp only [List.length_cons]
    omega
  have hcf : curve_fit solver (0.4, 70.0) (p :: q :: r :: s :: rest) = .ok (k, x0) := by
    simp only [curve_fit, if_neg hlen, hs]
  simp only [data_analysis, hcf, build_stats_cons]

/-- Inversion: a successful `data_analysis` run means the data had at least
four rows, the solver converged on it, and the returned array has the
characterized shape. -/
lemma data_analysis_ok_inv {solver : ℝ × ℝ → List (ℝ × ℝ) → Option (ℝ × ℝ)}
    {d : List (ℝ × ℝ)} {stats : List Row}
    (hok : data_analysis solver d = .ok stats) :
    ∃ (k x0 : ℝ) (p q r s : ℝ × ℝ) (rest : List (ℝ × ℝ)),
      d = p :: q :: r :: s :: rest ∧
      solver (0.4, 70.0) d = some (k, x0) ∧
      curve_fit solver (0.4, 70.0) d = .ok (k, x0) ∧
      stats = (p.1, p.2, k) :: (q.1, q.2, x0) :: (r.1, r.2, dbc10p k x0) ::
        (s.1, s.2, rsquaredOf d k x0) :: (rest.map fun t => (t.1, t.2, (0 : ℝ))) := by
  match d with
  | [] => simp [data_analysis, curve_fit] at hok
  | [p] => simp [data_analysis, curve_fit] at hok
  | [p, q] =>
    rcases hs : solver (0.4, 70.0) [p, q] with _ | popt
    · simp [data_analysis, curve_fit, hs] at hok
    · simp [data_analysis, curve_fit, hs, build_stats_two] at hok
  | [p, q, r] =>
    rcases hs : solver (0.4, 70.0) [p, q, r] with _ | popt
    · simp [data_analysis, curve_fit, hs] at hok
    · simp [data_analysis, curve_fit, hs, build_stats_three] at hok
  | p :: q :: r :: s :: rest =>
    have hlen : ¬ (p :: q :: r :: s :: rest).length < 2 := by
      simp only [List.length_cons]
      omega
    rcases hs : solver (0.4, 70.0) (p :: q :: r :: s :: rest) with _ | popt
    · have hcf : curve_fit solver (0.4, 70.0) (p :: q :: r :: s :: rest) =
          .error .noConvergence := by
        simp only [curve_fit, if_neg hlen, hs]
      simp [data_analysis, hcf] at hok
    · obtain ⟨k, x0⟩ := popt
      have h := data_analysis_eq_ok solver p q r s rest k x0 hs
      rw [h] at hok
      refine ⟨k, x0, p, q, r, s, rest, rfl, rfl, ?_, ?_⟩
      · simp only [curve_fit, if_neg hlen, hs]
      · exact (Except.ok.injEq _ _).mp hok.symm

/-- The script's `rsquared` computation is literally the specification's
quality-score formula. -/
lemma rsquaredOf_eq_quality_spec (d : List (ℝ × ℝ)) (k x0 : ℝ) :
    rsquaredOf d k x0 = quality_spec d k x0 := by
  simp only [rsquaredOf, quality_spec, sigmoid, List.map_map]
  rfl

/-- The mean is invariant under permutation of the samples. -/
lemma npMean_perm {l l' : List ℝ} (h : l.Perm l') : npMean l = npMean l' := by
  unfold npMean
  rw [h.sum_eq, h.length_eq]

/-- The quality score is invariant under permutation of the rows. -/
lemma rsquaredOf_perm {d d' : List (ℝ × ℝ)} (h : d.Perm d') (k x0 : ℝ) :
    rsquaredOf d k x0 = rsquaredOf d' k x0 := by
  rw [rsquaredOf_eq_quality_spec, rsquaredOf_eq_quality_spec]
  unfold quality_spec
  rw [npMean_perm (h.map Prod.snd)]
  rw [(h.map fun p => (sigmoid p.1 k x0 - npMean (d'.map Prod.snd)) ^ 2).sum_eq,
    (h.map fun p => (p.2 - npMean (d'.map Prod.snd)) ^ 2).sum_eq]

/-- Lower bound `2.192 < log 9`, i.e. `exp 2.192 < 9`. -/
lemma log_nine_gt : (2.192 : ℝ) < Real.log 9 := by
  rw [Real.lt_log_iff_exp_lt (by norm_num)]
  have t1 : (0.952 : ℝ) ≤ (Real.exp 0.048)⁻¹ := by
    have h := Real.add_one_le_exp (-0.048 : ℝ)
    rw [Real.exp_neg] at h
    linarith
  have t2 : Real.exp 0.048 ≤ (0.952 : ℝ)⁻¹ := by
    have h := inv_anti₀ (by norm_num : (0 : ℝ) < 0.952) t1
    rwa [inv_inv] at h
  have t3 : Real.exp 0.192 ≤ ((0.952 : ℝ)⁻¹) ^ 4 := by
    have he : Real.exp 0.192 = Real.exp 0.048 ^ 4 := by
      rw [← Real.exp_nat_mul]
      norm_num
    rw [he]
    exact pow_le_pow_left₀ (Real.exp_pos _).le t2 4
  have hsplit : Real.exp 2.192 = Real.exp 1 ^ 2 * Real.exp 0.192 := by
    rw [sq, ← Real.exp_add, ← Real.exp_add]
    norm_num
  have e_lt : Real.exp 1 < 2.7182818286 := Real.exp_one_lt_d9
  calc Real.exp 2.192 = Real.exp 1 ^ 2 * Real.exp 0.192 := hsplit
    _ ≤ Real.exp 1 ^ 2 * ((0.952 : ℝ)⁻¹) ^ 4 :=
        mul_le_mul_of_nonneg_left t3 (by positivity)
    _ < 2.7182818286 ^ 2 * ((0.952 : ℝ)⁻¹) ^ 4 := by
        have h2 : Real.exp 1 ^ 2 < (2.7182818286 : ℝ) ^ 2 := by
          nlinarith [Real.exp_pos 1, e_lt]
        exact mul_lt_mul_of_pos_right h2 (by positivity)
    _ < 9 := by norm_num

/-- Upper bound `log 9 < 2.2`, i.e. `9 < exp 2.2`. -/
lemma log_nine_lt : Real.log 9 < (2.2 : ℝ) := by
  rw [Real.log_lt_iff_lt_exp (by norm_num)]
  have t1 : (1.025 : ℝ) ≤ Real.exp 0.025 := by
    have h := Real.add_one_le_exp (0.025 : ℝ)
    linarith
  have t2 : ((1.025 : ℝ)) ^ 8 ≤ Real.exp 0.2 := by
    have he : Real.exp 0.2 = Real.exp 0.025 ^ 8 := by
      rw [← Real.exp_nat_mul]
      norm_num
    rw [he]
    exact pow_le_pow_left₀ (by norm_num) t1 8
  have hsplit : Real.exp 2.2 = Real.exp 1 ^ 2 * Real.exp 0.2 := by
    rw [sq, ← Real.exp_add, ← Real.exp_add]
    norm_num
  have e_gt : (2.7182818283 : ℝ) < Real.exp 1 := Real.exp_one_gt_d9
  calc (9 : ℝ) < 2.7182818283 ^ 2 * (1.025 : ℝ) ^ 8 := by norm_num
    _ ≤ 2.7182818283 ^ 2 * Real.exp 0.2 := mul_le_mul_of_nonneg_left t2 (by norm_num)
    _ < Real.exp 1 ^ 2 * Real.exp 0.2 := by
        have h2 : (2.7182818283 : ℝ) ^ 2 < Real.exp 1 ^ 2 := by
          nlinarith [Real.exp_pos 1, e_gt]
        exact mul_lt_mul_of_pos_right h2 (Real.exp_pos _)
    _ = Real.exp 2.2 := hsplit.symm

/-- The derived metric at the spec's reference parameters is within 0.01 of
64.51. -/
lemma dbc_reference_value : |dbc10p 0.4 70 - 64.51| < 0.01 := by
  have h1 := log_nine_gt
  have h2 := log_nine_lt
  have h3 : -Real.log 9 / (0.4 : ℝ) = -(2.5) * Real.log 9 := by ring
  rw [dbc10p, abs_lt, h3]
  constructor <;> linarith

/-- Any list with at least four elements splits into four heads and a tail. -/
lemma exists_four_cons {α : Type} (d : List α) (h : 4 ≤ d.length) :
    ∃ p q r s rest, d = p :: q :: r :: s :: rest := by
  rcases d with _ | ⟨p, _ | ⟨q, _ | ⟨r, _ | ⟨s, rest⟩⟩⟩⟩
  · simp at h
  · simp at h
  · simp at h
  · simp at h
  · exact ⟨p, q, r, s, rest, rfl⟩

/-- Concrete evaluation: `zeroSolver` on `demoData`. -/
lemma demo_ok00 : data_analysis zeroSolver demoData = .ok demoStats00 := by
  have h := data_analysis_eq_ok zeroSolver (0, 0) (1, 0) (2, 1) (3, 1) [] 0 0 rfl
  simpa [demoData, demoStats00] using h

/-- Concrete evaluation: `oneTwoSolver` on `demoData`. -/
lemma demo_ok12 : data_analysis oneTwoSolver demoData = .ok demoStats12 := by
  have h := data_analysis_eq_ok oneTwoSolver (0, 0) (1, 0) (2, 1) (3, 1) [] 1 2 rfl
  simpa [demoData, demoStats12] using h

/-- Concrete evaluation: `curve_fit` under `oneTwoSolver` on `demoData`. -/
lemma curve_fit_oneTwo_demo :
    curve_fit oneTwoSolver (0.4, 70.0) demoData = .ok (1, 2) := by
  simp [curve_fit, oneTwoSolver, demoData]

/-- Concrete evaluation: the quality score of `demoData` at `k = 0, x0 = 0`
is `0` (all predictions are `1/2`, which equals the mean of y). -/
lemma demo_rsq00 : rsquaredOf demoData 0 0 = 0 := by
  simp only [rsquaredOf, demoData, npMean, List.map_cons, List.map_nil]
  norm_num [Real.exp_zero]

/-- `main` is exactly `main_np` restricted to the two-column case: on a 2-D
parse the script only ever uses the first two columns and the row count. -/
lemma main_np_twoD (solver : ℝ × ℝ → List (ℝ × ℝ) → Option (ℝ × ℝ))
    (rows : List (ℝ × ℝ × List ℝ)) :
    main_np solver (.parsed (.twoD rows)) =
      main solver (.ok (rows.map fun row => (row.1, row.2.1))) := rfl

/-- A 1-D parse (single-row or single-column file) makes the run abort with
the unhandled `IndexError` from `data_array[:, 0]`, with no output file. -/
lemma main_np_oneD (solver : ℝ × ℝ → List (ℝ × ℝ) → Option (ℝ × ℝ))
    (vals : List ℝ) :
    main_np solver (.parsed (.oneD vals)) =
      { outcome := .raised .indexOutOfBounds, messages := [], files := [] } := rfl

/-- Concrete evaluation: the quality score of `demoData2` at `k = 0, x0 = 0`
is exactly `1`. -/
lemma demo_rsq2_one : rsquaredOf demoData2 0 0 = 1 := by
  simp only [rsquaredOf, demoData2, npMean, List.map_cons, List.map_nil]
  norm_num [Real.exp_zero]

/-- Concrete evaluation: `zeroSolver` on `demoData2`. -/
lemma demo_ok2 : data_analysis zeroSolver demoData2 = .ok demoStats2 := by
  have h := data_analysis_eq_ok zeroSolver (0, 0.1) (1, 0.1) (2, 0.5) (3, 0.5) [] 0 0 rfl
  simpa [demoData2, demoStats2] using h

/-- C1: for every sample set on which the fit succeeds with parameters
`(k, x0)`, the quality score returned by `data_analysis` (row 3, column 2 of
the stats array) equals exactly `sum((y_hat - mean(y))^2) / sum((y - mean(y))^2)`
with `y_hat` the fitted sigmoid at each observed x — and this formula differs
from the conventional R^2, whose numerator is `sum((y - y_hat)^2)`. -/
theorem quality_score_matches_spec
    (solver : ℝ × ℝ → List (ℝ × ℝ) → Option (ℝ × ℝ))
    (d : List (ℝ × ℝ)) (stats : List Row) (k x0 : ℝ)
    (hok : data_analysis solver d = .ok stats)
    (hcf : curve_fit solver (0.4, 70.0) d = .ok (k, x0)) :
    cell2 stats 3 = quality_spec d k x0 ∧
    ∃ (d' : List (ℝ × ℝ)) (k' x0' : ℝ),
      quality_spec d' k' x0' ≠ conventional_r2 d' k' x0' := by
  obtain ⟨k₁, x₁, p, q, r, s, rest, hd, hsolve, hcf', hstats⟩ := data_analysis_ok_inv hok
  rw [hcf'] at hcf
  injection hcf with hpair
  injection hpair with hk hx
  subst hk hx
  constructor
  · rw [hstats]
    simp only [cell2, List.getD_cons_succ, List.getD_cons_zero]
    exact rsquaredOf_eq_quality_spec d k₁ x₁
  · refine ⟨[(0, 0), (0, 1)], 0, 0, ?_⟩
    have hq : quality_spec [((0 : ℝ), (0 : ℝ)), (0, 1)] 0 0 = 0 := by
      simp only [quality_spec, sigmoid, npMean, List.map_cons, List.map_nil]
      norm_num [Real.exp_zero]
    have hc : conventional_r2 [((0 : ℝ), (0 : ℝ)), (0, 1)] 0 0 = 1 := by
      simp only [conventional_r2, sigmoid, npMean, List.map_cons, List.map_nil]
      norm_num [Real.exp_zero]
    rw [hq, hc]
    norm_num

/-- Witness for C1 at a concrete solver and data set. -/
theorem quality_score_matches_spec_witness :
    cell2 demoStats12 3 = quality_spec demoData 1 2 ∧
    ∃ (d' : List (ℝ × ℝ)) (k' x0' : ℝ),
      quality_spec d' k' x0' ≠ conventional_r2 d' k' x0' :=
  quality_score_matches_spec oneTwoSolver demoData demoStats12 1 2 demo_ok12
    curve_fit_oneTwo_demo

/-- C2: for every fitted parameter pair `(k, x0)` with `k` nonzero, the DBC 10%
metric stored by `data_analysis` (row 2, column 2) equals the closed form
`x0 - ln(9)/k`, a deterministic function of `(k, x0)` alone; in particular for
`k = 0.4, x0 = 70` its value is within 0.01 of 64.51. -/
theorem derived_metric_closed_form
    (solver : ℝ × ℝ → List (ℝ × ℝ) → Option (ℝ × ℝ))
    (d : List (ℝ × ℝ)) (stats : List Row) (k x0 : ℝ)
    (hok : data_analysis solver d = .ok stats)
    (hcf : curve_fit solver (0.4, 70.0) d = .ok (k, x0))
    (hk : k ≠ 0) :
    cell2 stats 2 = x0 - Real.log 9 / k ∧ |dbc10p 0.4 70 - 64.51| < 0.01 := by
  obtain ⟨k₁, x₁, p, q, r, s, rest, hd, hsolve, hcf', hstats⟩ := data_analysis_ok_inv hok
  rw [hcf'] at hcf
  injection hcf with hpair
  injection hpair with hk1 hx1
  subst hk1 hx1
  refine ⟨?_, dbc_reference_value⟩
  rw [hstats]
  simp only [cell2, List.getD_cons_succ, List.getD_cons_zero, dbc10p]
  ring

/-- Witness for C2 at a concrete solver and data set with `k = 1 ≠ 0`. -/
theorem derived_metric_closed_form_witness :
    cell2 demoStats12 2 = 2 - Real.log 9 / 1 ∧ |dbc10p 0.4 70 - 64.51| < 0.01 :=
  derived_metric_closed_form oneTwoSolver demoData demoStats12 1 2 demo_ok12
    curve_fit_oneTwo_demo one_ne_zero

/-- C3: whenever the fit succeeds (`data_analysis` returns a stats array),
a quality score strictly outside `[0.95, 1.05]` makes `main` print the
`bad_fit` warning and write no output file, while a score inside the window,
endpoints included, makes `main` write the results csv and the plot with no
warning. -/
theorem quality_gate_window
    (solver : ℝ × ℝ → List (ℝ × ℝ) → Option (ℝ × ℝ))
    (d : List (ℝ × ℝ)) (stats : List Row)
    (hok : data_analysis solver d = .ok stats) :
    ((cell2 stats 3 < 0.95 ∨ 1.05 < cell2 stats 3) →
      main solver (.ok d) =
        { outcome := .returned none, messages := [.poorFit (cell2 stats 3)],
          files := [] }) ∧
    ((0.95 ≤ cell2 stats 3 ∧ cell2 stats 3 ≤ 1.05) →
      main solver (.ok d) =
        { outcome := .returned (some SUCCESS), messages := [],
          files := [.statsCsv, .plotPng] }) := by
  constructor
  · intro h
    simp only [main, parse_cmdline, hok]
    rw [if_pos (Or.symm h)]
  · intro h
    simp only [main, parse_cmdline, hok]
    rw [if_neg]
    push_neg
    exact ⟨h.2, h.1⟩

/-- Witness for C3: with quality score 0 the warning path is taken. -/
theorem quality_gate_window_witness :
    main zeroSolver (.ok demoData) =
      { outcome := .returned none, messages := [.poorFit (cell2 demoStats00 3)],
        files := [] } := by
  have hcell : cell2 demoStats00 3 = 0 := by
    simp only [demoStats00, cell2, List.getD_cons_succ, List.getD_cons_zero]
    exact demo_rsq00
  exact (quality_gate_window zeroSolver demoData demoStats00 demo_ok00).1
    (Or.inl (by rw [hcell]; norm_num))

/-- C4: whenever `curve_fit` fails (too few samples or no convergence), the
error propagates out of `data_analysis` unchanged — no retry — and `main`
aborts with that exception before writing any output file. -/
theorem fit_error_terminal
    (solver : ℝ × ℝ → List (ℝ × ℝ) → Option (ℝ × ℝ))
    (d : List (ℝ × ℝ)) (e : FitError)
    (hcf : curve_fit solver (0.4, 70.0) d = .error e) :
    data_analysis solver d = .error (.fit e) ∧
    main solver (.ok d) =
      { outcome := .raised (.fit e), messages := [], files := [] } := by
  have h1 : data_analysis solver d = .error (.fit e) := by
    simp only [data_analysis, hcf]
  exact ⟨h1, by simp only [main, parse_cmdline, h1]⟩

/-- Witness for C4 with a never-converging solver. -/
theorem fit_error_terminal_witness :
    data_analysis noneSolver [((0 : ℝ), (0 : ℝ)), (1, 1)] =
      .error (.fit .noConvergence) ∧
    main noneSolver (.ok [((0 : ℝ), (0 : ℝ)), (1, 1)]) =
      { outcome := .raised (.fit .noConvergence), messages := [], files := [] } :=
  fit_error_terminal noneSolver [((0 : ℝ), (0 : ℝ)), (1, 1)] .noConvergence
    (by simp [curve_fit, noneSolver])

/-- C5: on inputs with exactly 2 or 3 rows `data_analysis` raises the
out-of-bounds index error even when the optimizer converges, because the
stats array has only as many rows as the input while the four statistics are
stored at rows 0-3 of column 2; with 4 or more rows (and a converging
optimizer) it returns a result, so the operation in fact needs at least 4
samples. -/
theorem stats_index_out_of_bounds
    (solver : ℝ × ℝ → List (ℝ × ℝ) → Option (ℝ × ℝ))
    (d : List (ℝ × ℝ)) (k x0 : ℝ)
    (hs : solver (0.4, 70.0) d = some (k, x0)) :
    ((d.length = 2 ∨ d.length = 3) →
      data_analysis solver d = .error .indexOutOfBounds) ∧
    (4 ≤ d.length → ∃ stats, data_analysis solver d = .ok stats) := by
  constructor
  · rintro (h2 | h3)
    · obtain ⟨p, q, rfl⟩ := List.length_eq_two.mp h2
      have hcf : curve_fit solver (0.4, 70.0) [p, q] = .ok (k, x0) := by
        simp [curve_fit, hs]
      simp [data_analysis, hcf, build_stats_two]
    · obtain ⟨p, q, r, rfl⟩ := List.length_eq_three.mp h3
      have hcf : curve_fit solver (0.4, 70.0) [p, q, r] = .ok (k, x0) := by
        simp [curve_fit, hs]
      simp [data_analysis, hcf, build_stats_three]
  · intro h4
    obtain ⟨p, q, r, s, rest, rfl⟩ := exists_four_cons d h4
    exact ⟨_, data_analysis_eq_ok solver p q r s rest k x0 hs⟩

/-- Witness for C5 on a two-row input with a converging solver. -/
theorem stats_index_out_of_bounds_witness :
    data_analysis zeroSolver [((0 : ℝ), (0 : ℝ)), (1, 1)] =
      .error .indexOutOfBounds :=
  (stats_index_out_of_bounds zeroSolver [((0 : ℝ), (0 : ℝ)), (1, 1)] 0 0 rfl).1
    (Or.inl rfl)

/-- C6 counterexample: a consistently 3-column sample file — malformed data
with the wrong column count — is not rejected.  `np.loadtxt` parses it, the
fit runs on its first two columns, and with an in-window quality score the
run completes, returns `SUCCESS` and writes both output files, instead of
aborting with `INVALID_DATA`. -/
theorem wrong_column_count_completes :
    (demo3Col.map fun row => 2 + row.2.2.length) = [3, 3, 3, 3] ∧
    main_np zeroSolver (.parsed (.twoD demo3Col)) =
      { outcome := .returned (some SUCCESS), messages := [],
        files := [.statsCsv, .plotPng] } := by
  constructor
  · rfl
  · have hproj : demo3Col.map (fun row => (row.1, row.2.1)) = demoData2 := rfl
    rw [main_np_twoD, hproj]
    have hcell : cell2 demoStats2 3 = 1 := by
      simp only [demoStats2, cell2, List.getD_cons_succ, List.getD_cons_zero]
      exact demo_rsq2_one
    have hgate : ¬(cell2 demoStats2 3 > 1.05 ∨ cell2 demoStats2 3 < 0.95) := by
      rw [hcell]
      norm_num
    simp only [main, parse_cmdline, demo_ok2, if_neg hgate]

/-- C6 (amended): whenever loading the sample data fails — unreadable source
(`IOError`) or data `np.loadtxt` rejects, i.e. ragged rows or non-numeric
entries (`ValueError`) — the run aborts immediately with a warning and no
output file, and the exit indicators are distinct: `IO_ERROR = 1` for
unreadable sources, `INVALID_DATA = 2` for invalid data, `SUCCESS = 0` for
success.  (A consistently 3-column file is not rejected, and a 1-D parse
aborts later with an unhandled `IndexError`, not with `INVALID_DATA`.) -/
theorem input_error_exit_codes_amended
    (solver : ℝ × ℝ → List (ℝ × ℝ) → Option (ℝ × ℝ)) :
    main_np solver .ioError =
      { outcome := .returned (some IO_ERROR), messages := [.problemsReadingFile],
        files := [] } ∧
    main_np solver .valueError =
      { outcome := .returned (some INVALID_DATA), messages := [.readInvalidData],
        files := [] } ∧
    IO_ERROR ≠ INVALID_DATA ∧ IO_ERROR ≠ SUCCESS ∧ INVALID_DATA ≠ SUCCESS ∧
    IO_ERROR = 1 ∧ INVALID_DATA = 2 ∧ SUCCESS = 0 :=
  ⟨rfl, rfl, by decide, by decide, by decide, rfl, rfl, rfl⟩

/-- C7: on fewer than 2 samples the fit fails with the explicit
too-few-samples error signalled to the caller, rather than silently crashing
or returning NaN. -/
theorem too_few_samples_error
    (solver : ℝ × ℝ → List (ℝ × ℝ) → Option (ℝ × ℝ))
    (d : List (ℝ × ℝ)) (h : d.length < 2) :
    data_analysis solver d = .error (.fit .tooFewSamples) := by
  have hcf : curve_fit solver (0.4, 70.0) d = .error .tooFewSamples := by
    simp only [curve_fit, if_pos h]
  simp only [data_analysis, hcf]

/-- Witness for C7 on the empty sample set. -/
theorem too_few_samples_error_witness :
    data_analysis zeroSolver [] = .error (.fit .tooFewSamples) :=
  too_few_samples_error zeroSolver [] (by simp)

/-- C8: for every solver whose outcome depends on the sample set only up to
permutation of its rows — the property of the (external) exact-arithmetic
least-squares optimizer, every aggregate of which is a permutation-invariant
sum over the samples, as proved here for the minimized objective itself —
every sample set on which the fit succeeds, and every permutation of its
rows: the fit on the permuted set also succeeds and yields the same k, x0,
derived metric and quality score. -/
theorem fit_permutation_invariant
    (solver : ℝ × ℝ → List (ℝ × ℝ) → Option (ℝ × ℝ))
    (hstable : ∀ (p0 : ℝ × ℝ) (a b : List (ℝ × ℝ)), a.Perm b → solver p0 a = solver p0 b)
    (d d' : List (ℝ × ℝ)) (stats : List Row)
    (hperm : d.Perm d')
    (hok : data_analysis solver d = .ok stats) :
    (∀ k x0 : ℝ, lsq_objective d k x0 = lsq_objective d' k x0) ∧
    ∃ stats', data_analysis solver d' = .ok stats' ∧
      cell2 stats' 0 = cell2 stats 0 ∧ cell2 stats' 1 = cell2 stats 1 ∧
      cell2 stats' 2 = cell2 stats 2 ∧ cell2 stats' 3 = cell2 stats 3 := by
  constructor
  · intro k x0
    simp only [lsq_objective]
    exact (hperm.map fun p => (p.2 - sigmoid p.1 k x0) ^ 2).sum_eq
  · obtain ⟨k, x0, p, q, r, s, rest, hd, hsolve, hcf, hstats⟩ := data_analysis_ok_inv hok
    have hsolve' : solver (0.4, 70.0) d' = some (k, x0) := by
      rw [← hstable (0.4, 70.0) d d' hperm]
      exact hsolve
    have h4' : 4 ≤ d'.length := by
      rw [← hperm.length_eq, hd]
      simp only [List.length_cons]
      omega
    obtain ⟨p', q', r', s', rest', hd'⟩ := exists_four_cons d' h4'
    subst hd'
    refine ⟨_, data_analysis_eq_ok solver p' q' r' s' rest' k x0 hsolve',
      ?_, ?_, ?_, ?_⟩
    · rw [hstats]
      simp [cell2, List.getD_cons_succ, List.getD_cons_zero]
    · rw [hstats]
      simp [cell2, List.getD_cons_succ, List.getD_cons_zero]
    · rw [hstats]
      simp [cell2, List.getD_cons_succ, List.getD_cons_zero]
    · rw [hstats]
      simp only [cell2, List.getD_cons_succ, List.getD_cons_zero]
      exact (rsquaredOf_perm hperm k x0).symm

/-- Witness for C8: the permutation-stable solver `oneTwoSolver` on
`demoData` against its reversal, with the original run's success discharged
concretely. -/
theorem fit_permutation_invariant_witness :
    (∀ k x0 : ℝ, lsq_objective demoData k x0 = lsq_objective demoData.reverse k x0) ∧
    ∃ stats', data_analysis oneTwoSolver demoData.reverse = .ok stats' ∧
      cell2 stats' 0 = cell2 demoStats12 0 ∧ cell2 stats' 1 = cell2 demoStats12 1 ∧
      cell2 stats' 2 = cell2 demoStats12 2 ∧ cell2 stats' 3 = cell2 demoStats12 3 :=
  fit_permutation_invariant oneTwoSolver (fun _ _ _ _ => rfl) demoData
    demoData.reverse demoStats12 (List.reverse_perm demoData).symm demo_ok12

/-- C9: `data_analysis` is a pure, deterministic function of the solver and
the sample array: two runs on equal sample sets produce equal results.  (The
embedding itself is state-free: the source reads but never writes its input
array, all writes going to the freshly allocated stats array.) -/
theorem data_analysis_deterministic
    (solver : ℝ × ℝ → List (ℝ × ℝ) → Option (ℝ × ℝ))
    (d₁ d₂ : List (ℝ × ℝ)) (h : d₁ = d₂) :
    data_analysis solver d₁ = data_analysis solver d₂ := by
  rw [h]

/-- Witness for C9 on a concrete sample set. -/
theorem data_analysis_deterministic_witness :
    data_analysis zeroSolver demoData = data_analysis zeroSolver demoData :=
  data_analysis_deterministic zeroSolver demoData demoData rfl

/-- C10: whenever `data_analysis` returns, columns 0 and 1 of the returned
stats array are exactly the x column and y column of the input, unchanged. -/
theorem sample_columns_preserved
    (solver : ℝ × ℝ → List (ℝ × ℝ) → Option (ℝ × ℝ))
    (d : List (ℝ × ℝ)) (stats : List Row)
    (hok : data_analysis solver d = .ok stats) :
    stats.map (fun row => row.1) = d.map Prod.fst ∧
    stats.map (fun row => row.2.1) = d.map Prod.snd := by
  obtain ⟨k, x0, p, q, r, s, rest, rfl, hsolve, hcf, rfl⟩ := data_analysis_ok_inv hok
  constructor <;> simp [List.map_map, Function.comp]

/-- Witness for C10 on a concrete run. -/
theorem sample_columns_preserved_witness :
    demoStats00.map (fun row => row.1) = demoData.map Prod.fst ∧
    demoStats00.map (fun row => row.2.1) = demoData.map Prod.snd :=
  sample_columns_preserved zeroSolver demoData demoStats00 demo_ok00
